import Mathlib

/-!
# Verification of the Chef TCO calculation engine

Shallow embedding of `src/ui/src/lib/calculator.ts` (the Cost Model Engine):
the benchmark tables, health-metric derivation, TCO breakdown, migration
scenario projections and the analysis-report assembler, together with proofs
of the specified properties.

Numbers are modelled by exact rationals (`ℚ`).  Human-readable issue and
recommendation strings are abstracted to tags (the engine only ever appends
fixed messages at fixed program points, so a tag per program point captures
the list structure exactly).  The one division in the engine that is not
guarded against a zero denominator (the scenario savings percentage) is
modelled with `Option ℚ`: `none` stands for the NaN / infinite artifact the
source produces there.
-/

namespace TCO

/-- Infrastructure section of the input snapshot (`InfrastructureData`). -/
structure InfrastructureData where
  totalManagedNodes : ℚ
  productionNodes : ℚ
  stagingNodes : ℚ
  developmentNodes : ℚ
  chefServerCount : ℚ
  monthlyServerCost : ℚ
  chefRunIntervalMinutes : ℚ
  deriving DecidableEq, Repr

/-- Cookbook estate section of the input snapshot (`CookbookData`). -/
structure CookbookData where
  totalCookbooks : ℚ
  uniqueCookbookNames : ℚ
  activeCookbooks : ℚ
  tier1Simple : ℚ
  tier2Standard : ℚ
  tier3Complex : ℚ
  avgCookbooksPerNode : ℚ
  deriving DecidableEq, Repr

/-- Team section of the input snapshot (`TeamData`). -/
structure TeamData where
  dedicatedEngineers : ℚ
  partTimeContributors : ℚ
  partTimeAllocationPct : ℚ
  averageSalary : ℚ
  benefitsMultiplier : ℚ
  deriving DecidableEq, Repr

/-- Incident section of the input snapshot (`IncidentData`). -/
structure IncidentData where
  monthlyIncidents : ℚ
  averageMttrHours : ℚ
  engineersPerIncident : ℚ
  deriving DecidableEq, Repr

/-- Licensing/financial section of the input snapshot (`LicensingData`). -/
structure LicensingData where
  annualLicenseCost : ℚ
  negotiatedRatePerNode : ℚ
  annualTrainingBudget : ℚ
  monthlyCicdCost : ℚ
  annualContractorSpend : ℚ
  deriving DecidableEq, Repr

/-- The full input snapshot (`OrganizationData`). -/
structure OrganizationData where
  infrastructure : InfrastructureData
  cookbooks : CookbookData
  team : TeamData
  incidents : IncidentData
  licensing : LicensingData
  deriving DecidableEq, Repr

/-- The categorical health score. -/
inductive HealthScore where
  | healthy
  | warning
  | critical
  deriving DecidableEq, Repr

/-- Tags for the issue strings `calculateHealthMetrics` can push, one per
push site in the source. -/
inductive IssueTag where
  | cookbookRatioCritical
  | cookbookRatioWarning
  | fteUnderstaffing
  | fteLowEfficiency
  deriving DecidableEq, Repr

/-- `HealthMetrics` record. -/
structure HealthMetrics where
  cookbookRatio : ℚ
  cookbooksPerFte : ℚ
  debtMultiplier : ℚ
  healthScore : HealthScore
  issues : List IssueTag
  deriving DecidableEq, Repr

/-- `TCOBreakdown` record: nine cost line items plus three aggregates. -/
structure TCOBreakdown where
  licensingCost : ℚ
  infrastructureCost : ℚ
  platformLaborCost : ℚ
  distributedLaborCost : ℚ
  incidentCost : ℚ
  technicalDebtTax : ℚ
  trainingCost : ℚ
  contractorCost : ℚ
  opportunityCost : ℚ
  directCosts : ℚ
  laborCosts : ℚ
  totalAnnualTco : ℚ
  deriving DecidableEq, Repr

/-- The fixed list of alternative platforms (`BENCHMARKS.alternatives` keys). -/
inductive Platform where
  | ansible
  | kubernetes
  | terraform
  | puppet
  deriving DecidableEq, Repr

/-- Qualitative risk level of a scenario. -/
inductive Risk where
  | low
  | medium
  | high
  deriving DecidableEq, Repr

/-- `ScenarioResult` record.  `breakEvenMonths` is `Option ℚ` because the
source stores `null` when there are no steady-state savings.
`savingsPercent` is `Option ℚ` because the source's division there is not
guarded: `none` models the NaN / infinite value JavaScript produces when the
denominator (current 3-year TCO) is zero. -/
structure ScenarioResult where
  name : String
  platform : Platform
  migrationCost : ℚ
  year1Cost : ℚ
  year2Cost : ℚ
  year3Cost : ℚ
  threeYearTotal : ℚ
  breakEvenMonths : Option ℚ
  npv3Year : ℚ
  riskScore : Risk
  annualSavings : ℚ
  savingsPercent : Option ℚ
  deriving DecidableEq, Repr

/-- One row of a three-level benchmark threshold table. -/
structure Thresholds where
  healthy : ℚ
  warning : ℚ
  critical : ℚ
  deriving DecidableEq, Repr

/-- `BENCHMARKS.healthThresholds.cookbookRatio`. -/
def healthThresholds_cookbookRatio : Thresholds := ⟨25, 100, 500⟩

/-- `BENCHMARKS.healthThresholds.cookbooksPerFte`. -/
def healthThresholds_cookbooksPerFte : Thresholds := ⟨150, 75, 50⟩

/-- `BENCHMARKS.healthThresholds.runListSize`. -/
def healthThresholds_runListSize : Thresholds := ⟨15, 30, 50⟩

/-- `BENCHMARKS.debtMultipliers`: ordered (upper bound, multiplier) pairs;
`none` as bound models the final `Infinity` threshold. -/
def debtMultipliers : List (Option ℚ × ℚ) :=
  [(some 25, 1), (some 50, 1.1), (some 100, 1.25),
   (some 250, 1.5), (some 500, 2), (none, 2.5)]

/-- `BENCHMARKS.migration` constants. -/
structure MigrationConfig where
  tier1Hours : ℚ
  tier2Hours : ℚ
  tier3Hours : ℚ
  learningCurveMonths : ℚ
  learningCurvePenalty : ℚ
  deriving DecidableEq, Repr

/-- `BENCHMARKS.migration`. -/
def migrationConfig : MigrationConfig := ⟨4, 16, 40, 6, 0.2⟩

/-- Static per-platform configuration (`BENCHMARKS.alternatives` values). -/
structure PlatformConfig where
  perNodeCost : ℚ
  migrationFactor : ℚ
  label : String
  deriving DecidableEq, Repr

/-- `BENCHMARKS.alternatives`. -/
def alternatives : Platform → PlatformConfig
  | .ansible => ⟨75, 1, "Ansible"⟩
  | .kubernetes => ⟨30, 1.8, "Kubernetes/GitOps"⟩
  | .terraform => ⟨20, 1.2, "Terraform"⟩
  | .puppet => ⟨125, 0.7, "Puppet"⟩

/-- The `for`-loop body of `getDebtMultiplier`: scan the table in order and
return the multiplier of the first entry whose bound is satisfied (a `none`
bound is `Infinity`, satisfied by every ratio); the fallback after the loop
is 2.5. -/
def debtLookup (cookbookRatio : ℚ) : List (Option ℚ × ℚ) → ℚ
  | [] => 2.5
  | (bound, multiplier) :: rest =>
    match bound with
    | none => multiplier
    | some b => if cookbookRatio ≤ b then multiplier else debtLookup cookbookRatio rest

/-- `getDebtMultiplier` from the source. -/
def getDebtMultiplier (cookbookRatio : ℚ) : ℚ :=
  debtLookup cookbookRatio debtMultipliers

/-- `calculateHealthMetrics` from the source.  The source mutates a metrics
record in order; the successive states are modelled by the let-chain.  The
divisions are exactly the guarded ones of the source (division only happens
in the positive branch of each guard). -/
def calculateHealthMetrics (data : OrganizationData) : HealthMetrics :=
  let cookbookRatio : ℚ :=
    if data.infrastructure.totalManagedNodes > 0 then
      data.cookbooks.activeCookbooks / data.infrastructure.totalManagedNodes * 1000
    else 0
  let totalFte : ℚ :=
    data.team.dedicatedEngineers +
      data.team.partTimeContributors * (data.team.partTimeAllocationPct / 100)
  let cookbooksPerFte : ℚ :=
    if totalFte > 0 then data.cookbooks.activeCookbooks / totalFte else 0
  let debtMultiplier := getDebtMultiplier cookbookRatio
  let scoreIssues1 : HealthScore × List IssueTag :=
    if cookbookRatio > healthThresholds_cookbookRatio.critical then
      (.critical, [.cookbookRatioCritical])
    else if cookbookRatio > healthThresholds_cookbookRatio.healthy then
      (.warning, [.cookbookRatioWarning])
    else (.healthy, [])
  let scoreIssues2 : HealthScore × List IssueTag :=
    if cookbooksPerFte > 300 then
      (scoreIssues1.1, scoreIssues1.2 ++ [.fteUnderstaffing])
    else if cookbooksPerFte < healthThresholds_cookbooksPerFte.critical then
      ((if scoreIssues1.1 = .healthy then .warning else scoreIssues1.1),
        scoreIssues1.2 ++ [.fteLowEfficiency])
    else scoreIssues1
  { cookbookRatio := cookbookRatio
    cookbooksPerFte := cookbooksPerFte
    debtMultiplier := debtMultiplier
    healthScore := scoreIssues2.1
    issues := scoreIssues2.2 }

/-- `calculateTCO` from the source. -/
def calculateTCO (data : OrganizationData) (healthMetrics : HealthMetrics) :
    TCOBreakdown :=
  let fullyLoadedSalary := data.team.averageSalary * data.team.benefitsMultiplier
  let licensingCost := data.licensing.annualLicenseCost
  let infrastructureCost :=
    data.infrastructure.chefServerCount * data.infrastructure.monthlyServerCost * 12 +
      data.licensing.monthlyCicdCost * 12
  let platformLaborCost := data.team.dedicatedEngineers * fullyLoadedSalary
  let distributedLaborCost :=
    data.team.partTimeContributors * (data.team.partTimeAllocationPct / 100) *
      fullyLoadedSalary
  let hourlyRate := fullyLoadedSalary / 2080
  let incidentCost :=
    data.incidents.monthlyIncidents * 12 * data.incidents.averageMttrHours *
      data.incidents.engineersPerIncident * hourlyRate
  let baseLaborCost := platformLaborCost + distributedLaborCost
  let technicalDebtTax := baseLaborCost * (healthMetrics.debtMultiplier - 1)
  let trainingCost := data.licensing.annualTrainingBudget
  let contractorCost := data.licensing.annualContractorSpend
  let directCosts := licensingCost + infrastructureCost
  let laborCosts := platformLaborCost + distributedLaborCost + incidentCost
  let opportunityCost := laborCosts * 0.15
  let totalAnnualTco :=
    licensingCost + infrastructureCost + platformLaborCost + distributedLaborCost +
      incidentCost + technicalDebtTax + trainingCost + contractorCost + opportunityCost
  { licensingCost := licensingCost
    infrastructureCost := infrastructureCost
    platformLaborCost := platformLaborCost
    distributedLaborCost := distributedLaborCost
    incidentCost := incidentCost
    technicalDebtTax := technicalDebtTax
    trainingCost := trainingCost
    contractorCost := contractorCost
    opportunityCost := opportunityCost
    directCosts := directCosts
    laborCosts := laborCosts
    totalAnnualTco := totalAnnualTco }

/-- `calculateMigrationCost` from the source. -/
def calculateMigrationCost (data : OrganizationData) (platform : Platform) : ℚ :=
  let platformConfig := alternatives platform
  let totalHours :=
    (data.cookbooks.tier1Simple * migrationConfig.tier1Hours +
      data.cookbooks.tier2Standard * migrationConfig.tier2Hours +
      data.cookbooks.tier3Complex * migrationConfig.tier3Hours) *
      platformConfig.migrationFactor
  let hourlyRate := data.team.averageSalary * data.team.benefitsMultiplier / 2080
  let laborCost := totalHours * hourlyRate
  let trainingCost := data.team.dedicatedEngineers * 80 * hourlyRate
  let learningCost :=
    data.team.dedicatedEngineers *
      (data.team.averageSalary * data.team.benefitsMultiplier / 2) *
      migrationConfig.learningCurvePenalty
  let toolingCost := laborCost * 0.1
  laborCost + trainingCost + learningCost + toolingCost

/-- `calculateScenario` from the source.  `discountRate` is the explicit
parameter the source defaults to `0.1`; `generateAnalysisReport` passes
`0.1`.  `savingsPercent` is the single unguarded division of the engine:
`none` stands for the NaN / infinite artifact produced in JavaScript when
`current3Year` is zero. -/
def calculateScenario (data : OrganizationData) (tco : TCOBreakdown)
    (platform : Platform) (discountRate : ℚ) : ScenarioResult :=
  let currentTco := tco.totalAnnualTco
  let migrationCost := calculateMigrationCost data platform
  let platformConfig := alternatives platform
  let newLicenseCost := data.infrastructure.totalManagedNodes * platformConfig.perNodeCost
  let laborReduction : ℚ := 0.3
  let newLaborCost := tco.laborCosts * (1 - laborReduction)
  let newInfraCost := tco.infrastructureCost * 0.7
  let year1Cost :=
    migrationCost + newLicenseCost * 0.5 + tco.licensingCost * 0.5 +
      tco.laborCosts * 1.2 + newInfraCost
  let year2Cost := newLicenseCost + newLaborCost * 1.1 + newInfraCost + tco.trainingCost * 0.5
  let year3Cost := newLicenseCost + newLaborCost + newInfraCost * 0.9
  let threeYearTotal := year1Cost + year2Cost + year3Cost
  let annualSavings := currentTco - year3Cost
  let breakEvenMonths : Option ℚ :=
    if annualSavings > 0 then some (migrationCost / annualSavings * 12) else none
  let savingsY1 := (currentTco - year1Cost) / (1 + discountRate)
  let savingsY2 := (currentTco - year2Cost) / (1 + discountRate) ^ 2
  let savingsY3 := (currentTco - year3Cost) / (1 + discountRate) ^ 3
  let npv3Year := savingsY1 + savingsY2 + savingsY3
  let riskScore : Risk :=
    if platform = .kubernetes then .high else if platform = .puppet then .low else .medium
  let current3Year := currentTco * 3
  let savingsPercent : Option ℚ :=
    if current3Year = 0 then none
    else some ((current3Year - threeYearTotal) / current3Year * 100)
  { name := "Migration to " ++ platformConfig.label
    platform := platform
    migrationCost := migrationCost
    year1Cost := year1Cost
    year2Cost := year2Cost
    year3Cost := year3Cost
    threeYearTotal := threeYearTotal
    breakEvenMonths := breakEvenMonths
    npv3Year := npv3Year
    riskScore := riskScore
    annualSavings := annualSavings
    savingsPercent := savingsPercent }

/-- Per-unit cost block of the report. -/
structure PerUnitCosts where
  perNode : ℚ
  perCookbook : ℚ
  perFte : ℚ
  deriving DecidableEq, Repr

/-- Summary block of the report. -/
structure Summary where
  totalNodes : ℚ
  activeCookbooks : ℚ
  annualTco : ℚ
  perNodeCost : ℚ
  perCookbookCost : ℚ
  healthScore : HealthScore
  deriving DecidableEq, Repr

/-- Tags for the recommendation strings, one per push site in the source. -/
inductive RecTag where
  | consolidateCookbooks
  | investConsolidation
  | considerMigration
  | reliability
  deriving DecidableEq, Repr

/-- `AnalysisReport` record. -/
structure AnalysisReport where
  summary : Summary
  healthMetrics : HealthMetrics
  costBreakdown : TCOBreakdown
  perUnitCosts : PerUnitCosts
  scenarios : List ScenarioResult
  recommendations : List RecTag
  deriving DecidableEq, Repr

/-- The descending-NPV ordering used by the report's `sort` comparator
`(a, b) => b.npv3Year - a.npv3Year`. -/
def npvDesc (a b : ScenarioResult) : Prop := b.npv3Year ≤ a.npv3Year

instance : DecidableRel npvDesc := fun a b =>
  inferInstanceAs (Decidable (b.npv3Year ≤ a.npv3Year))

instance : IsTotal ScenarioResult npvDesc :=
  ⟨fun a b => le_total b.npv3Year a.npv3Year⟩

instance : IsTrans ScenarioResult npvDesc :=
  ⟨fun _ _ _ hab hbc => le_trans hbc hab⟩

/-- The platform iteration order of `Object.keys(BENCHMARKS.alternatives)`. -/
def platformList : List Platform := [.ansible, .kubernetes, .terraform, .puppet]

/-- `generateAnalysisReport` from the source.  The JavaScript stable sort by
the comparator `b.npv3Year - a.npv3Year` is modelled by insertion sort with
the total preorder `npvDesc`. -/
def generateAnalysisReport (data : OrganizationData) : AnalysisReport :=
  let healthMetrics := calculateHealthMetrics data
  let costBreakdown := calculateTCO data healthMetrics
  let perUnitCosts : PerUnitCosts :=
    { perNode := costBreakdown.totalAnnualTco / max 1 data.infrastructure.totalManagedNodes
      perCookbook := costBreakdown.totalAnnualTco / max 1 data.cookbooks.activeCookbooks
      perFte := costBreakdown.totalAnnualTco / max 1 data.team.dedicatedEngineers }
  let scenarios :=
    List.insertionSort npvDesc
      (platformList.map fun platform => calculateScenario data costBreakdown platform 0.1)
  let recommendations : List RecTag :=
    (if healthMetrics.cookbookRatio > 100 then [.consolidateCookbooks] else []) ++
    (if healthMetrics.debtMultiplier ≥ 1.5 then [.investConsolidation] else []) ++
    (match scenarios.head? with
     | some bestScenario => if bestScenario.npv3Year > 0 then [.considerMigration] else []
     | none => []) ++
    (if data.incidents.monthlyIncidents > 20 then [.reliability] else [])
  { summary :=
      { totalNodes := data.infrastructure.totalManagedNodes
        activeCookbooks := data.cookbooks.activeCookbooks
        annualTco := costBreakdown.totalAnnualTco
        perNodeCost := perUnitCosts.perNode
        perCookbookCost := perUnitCosts.perCookbook
        healthScore := healthMetrics.healthScore }
    healthMetrics := healthMetrics
    costBreakdown := costBreakdown
    perUnitCosts := perUnitCosts
    scenarios := scenarios
    recommendations := recommendations }

/-- Predicate from the data model: all snapshot fields are non-negative. -/
def NonnegData (d : OrganizationData) : Prop :=
  0 ≤ d.infrastructure.totalManagedNodes ∧ 0 ≤ d.infrastructure.productionNodes ∧
  0 ≤ d.infrastructure.stagingNodes ∧ 0 ≤ d.infrastructure.developmentNodes ∧
  0 ≤ d.infrastructure.chefServerCount ∧ 0 ≤ d.infrastructure.monthlyServerCost ∧
  0 ≤ d.infrastructure.chefRunIntervalMinutes ∧
  0 ≤ d.cookbooks.totalCookbooks ∧ 0 ≤ d.cookbooks.uniqueCookbookNames ∧
  0 ≤ d.cookbooks.activeCookbooks ∧ 0 ≤ d.cookbooks.tier1Simple ∧
  0 ≤ d.cookbooks.tier2Standard ∧ 0 ≤ d.cookbooks.tier3Complex ∧
  0 ≤ d.cookbooks.avgCookbooksPerNode ∧
  0 ≤ d.team.dedicatedEngineers ∧ 0 ≤ d.team.partTimeContributors ∧
  0 ≤ d.team.partTimeAllocationPct ∧ 0 ≤ d.team.averageSalary ∧
  0 ≤ d.team.benefitsMultiplier ∧
  0 ≤ d.incidents.monthlyIncidents ∧ 0 ≤ d.incidents.averageMttrHours ∧
  0 ≤ d.incidents.engineersPerIncident ∧
  0 ≤ d.licensing.annualLicenseCost ∧ 0 ≤ d.licensing.negotiatedRatePerNode ∧
  0 ≤ d.licensing.annualTrainingBudget ∧ 0 ≤ d.licensing.monthlyCicdCost ∧
  0 ≤ d.licensing.annualContractorSpend

instance (d : OrganizationData) : Decidable (NonnegData d) := by
  unfold NonnegData; infer_instance

/-- The reference snapshot of the end-to-end example (the repository's
sample data). -/
def referenceData : OrganizationData :=
  { infrastructure :=
      { totalManagedNodes := 200000
        productionNodes := 150000
        stagingNodes := 30000
        developmentNodes := 20000
        chefServerCount := 12
        monthlyServerCost := 4000
        chefRunIntervalMinutes := 30 }
    cookbooks :=
      { totalCookbooks := 90000
        uniqueCookbookNames := 15000
        activeCookbooks := 12000
        tier1Simple := 7200
        tier2Standard := 3600
        tier3Complex := 1200
        avgCookbooksPerNode := 8 }
    team :=
      { dedicatedEngineers := 45
        partTimeContributors := 120
        partTimeAllocationPct := 20
        averageSalary := 165000
        benefitsMultiplier := 1.4 }
    incidents :=
      { monthlyIncidents := 25
        averageMttrHours := 6
        engineersPerIncident := 2.5 }
    licensing :=
      { annualLicenseCost := 11000000
        negotiatedRatePerNode := 55
        annualTrainingBudget := 150000
        monthlyCicdCost := 15000
        annualContractorSpend := 500000 } }

/-- The all-zero snapshot. -/
def zeroData : OrganizationData :=
  { infrastructure := ⟨0, 0, 0, 0, 0, 0, 0⟩
    cookbooks := ⟨0, 0, 0, 0, 0, 0, 0⟩
    team := ⟨0, 0, 0, 0, 0⟩
    incidents := ⟨0, 0, 0⟩
    licensing := ⟨0, 0, 0, 0, 0⟩ }

/-- A snapshot with cookbook ratio 200 (1000 nodes, 200 active cookbooks)
and an empty team. -/
def ratio200Data : OrganizationData :=
  { infrastructure := ⟨1000, 0, 0, 0, 0, 0, 0⟩
    cookbooks := ⟨0, 0, 200, 0, 0, 0, 0⟩
    team := ⟨0, 0, 0, 0, 0⟩
    incidents := ⟨0, 0, 0⟩
    licensing := ⟨0, 0, 0, 0, 0⟩ }

/-- A snapshot with cookbook ratio 1 and cookbooks-per-FTE 100
(100000 nodes, 100 active cookbooks, one dedicated engineer). -/
def fte100Data : OrganizationData :=
  { infrastructure := ⟨100000, 0, 0, 0, 0, 0, 0⟩
    cookbooks := ⟨0, 0, 100, 0, 0, 0, 0⟩
    team := ⟨1, 0, 0, 0, 0⟩
    incidents := ⟨0, 0, 0⟩
    licensing := ⟨0, 0, 0, 0, 0⟩ }

/-- A snapshot with cookbook ratio 1000000 and cookbooks-per-FTE 1000
(one node, 1000 active cookbooks, one dedicated engineer). -/
def overloadData : OrganizationData :=
  { infrastructure := ⟨1, 0, 0, 0, 0, 0, 0⟩
    cookbooks := ⟨0, 0, 1000, 0, 0, 0, 0⟩
    team := ⟨1, 0, 0, 0, 0⟩
    incidents := ⟨0, 0, 0⟩
    licensing := ⟨0, 0, 0, 0, 0⟩ }

/-- A snapshot that is zero except for a 1000 annual license cost: its
total annual TCO is 1000 while its migration costs are all 0. -/
def licenseOnlyData : OrganizationData :=
  { infrastructure := ⟨0, 0, 0, 0, 0, 0, 0⟩
    cookbooks := ⟨0, 0, 0, 0, 0, 0, 0⟩
    team := ⟨0, 0, 0, 0, 0⟩
    incidents := ⟨0, 0, 0⟩
    licensing := ⟨1000, 0, 0, 0, 0⟩ }

/-- A snapshot with one dedicated engineer, two full-time-allocated
part-time contributors (total FTE 3) and a 3 annual license cost. -/
def fteSplitData : OrganizationData :=
  { infrastructure := ⟨0, 0, 0, 0, 0, 0, 0⟩
    cookbooks := ⟨0, 0, 0, 0, 0, 0, 0⟩
    team := ⟨1, 2, 100, 0, 0⟩
    incidents := ⟨0, 0, 0⟩
    licensing := ⟨3, 0, 0, 0, 0⟩ }

/-- Helper: with a non-negative snapshot, `calculateMigrationCost` is
non-negative (it is a sum of products of non-negative fields and positive
constants). -/
theorem calculateMigrationCost_nonneg (d : OrganizationData) (p : Platform)
    (hd : NonnegData d) : 0 ≤ calculateMigrationCost d p := by
  obtain ⟨-, -, -, -, -, -, -, -, -, -, h1, h2, h3, -, he, -, -, hs, hb, -⟩ := hd
  have hf : 0 ≤ (alternatives p).migrationFactor := by
    cases p <;> norm_num [alternatives]
  have hhr : 0 ≤ d.team.averageSalary * d.team.benefitsMultiplier / 2080 :=
    div_nonneg (mul_nonneg hs hb) (by norm_num)
  have hhours : 0 ≤
      (d.cookbooks.tier1Simple * migrationConfig.tier1Hours +
        d.cookbooks.tier2Standard * migrationConfig.tier2Hours +
        d.cookbooks.tier3Complex * migrationConfig.tier3Hours) *
        (alternatives p).migrationFactor := by
    refine mul_nonneg ?_ hf
    norm_num [migrationConfig]
    positivity
  unfold calculateMigrationCost
  refine add_nonneg (add_nonneg (add_nonneg ?_ ?_) ?_) ?_
  · exact mul_nonneg hhours hhr
  · exact mul_nonneg (mul_nonneg he (by norm_num)) hhr
  · refine mul_nonneg (mul_nonneg he ?_) (by norm_num [migrationConfig])
    exact div_nonneg (mul_nonneg hs hb) (by norm_num)
  · exact mul_nonneg (mul_nonneg hhours hhr) (by norm_num)

/-- C1 (counterexample): the claimed escalation rule fails on the code in
two places.  At `ratio200Data` the cookbook ratio is 200, which exceeds the
claimed critical threshold of 100, yet the computed health score is only
`warning` (the code compares the ratio against 500 for the critical
escalation).  At `fte100Data` cookbooks-per-FTE is 100, below the claimed
efficiency bound of 150, yet the computed score stays `healthy` (the code
compares cookbooks-per-FTE against 50). -/
theorem c1_healthScore_counterexample :
    ((calculateHealthMetrics ratio200Data).cookbookRatio = 200 ∧
      (calculateHealthMetrics ratio200Data).healthScore = .warning) ∧
    ((calculateHealthMetrics fte100Data).cookbookRatio = 1 ∧
      (calculateHealthMetrics fte100Data).cookbooksPerFte = 100 ∧
      (calculateHealthMetrics fte100Data).healthScore = .healthy) := by
  norm_num [calculateHealthMetrics, ratio200Data, fte100Data,
    healthThresholds_cookbookRatio, healthThresholds_cookbooksPerFte]

/-- C1 (amended): for every snapshot, `calculateHealthMetrics` assigns the
score `critical` whenever the cookbook ratio exceeds the critical threshold
500; otherwise `warning` whenever the ratio exceeds the healthy threshold
25 or cookbooks-per-FTE falls below the critical efficiency bound 50; and
`healthy` otherwise.  Once `critical` is set it is never downgraded within
the same call. -/
theorem c1_healthScore_amended (d : OrganizationData) :
    (calculateHealthMetrics d).healthScore =
      (if (calculateHealthMetrics d).cookbookRatio > 500 then .critical
       else if (calculateHealthMetrics d).cookbookRatio > 25 then .warning
       else if (calculateHealthMetrics d).cookbooksPerFte < 50 then .warning
       else .healthy) := by
  simp only [calculateHealthMetrics, healthThresholds_cookbookRatio,
    healthThresholds_cookbooksPerFte]
  split_ifs <;> simp_all <;> linarith

/-- C2 (counterexample): on the all-zero snapshot the scenario savings
percentage is a division-by-zero artifact — the source divides by
`current3Year = totalAnnualTco * 3 = 0` without a guard, producing NaN in
JavaScript (modelled by `none`).  So not every division of the engine
pipeline is guarded. -/
theorem c2_divisionGuard_counterexample :
    (calculateScenario zeroData
        (calculateTCO zeroData (calculateHealthMetrics zeroData)) .ansible 0.1).savingsPercent
      = none := by
  norm_num [calculateScenario, calculateTCO, calculateHealthMetrics, zeroData,
    getDebtMultiplier, debtLookup, debtMultipliers, healthThresholds_cookbookRatio,
    healthThresholds_cookbooksPerFte]

/-- C2 (amended): every division of the engine pipeline is guarded except
the scenario savings percentage, which divides by three times the current
total annual TCO unguarded: it is a well-defined number exactly when the
total annual TCO is nonzero (all the remaining computed fields are total
functions of the snapshot by construction). -/
theorem c2_divisionGuard_amended (d : OrganizationData) (tco : TCOBreakdown)
    (p : Platform) (r : ℚ) :
    (calculateScenario d tco p r).savingsPercent ≠ none ↔ tco.totalAnnualTco ≠ 0 := by
  rcases eq_or_ne tco.totalAnnualTco 0 with h | h <;>
    simp [calculateScenario, h, mul_eq_zero]

/-- C3 (counterexample): on the reference snapshot the pipeline yields a
total annual TCO of exactly 1835356825/52 ≈ $35,295,323.56 and a cost per
node of exactly 73414273/416000 ≈ $176.48 — not the claimed
high-$20M-to-low-$30M range (≈ $29.4M) and not ≈ $147 per node. -/
theorem c3_reference_counterexample :
    (calculateTCO referenceData (calculateHealthMetrics referenceData)).totalAnnualTco =
      1835356825 / 52 ∧
    (35000000 : ℚ) < 1835356825 / 52 ∧
    (generateAnalysisReport referenceData).perUnitCosts.perNode = 73414273 / 416000 ∧
    (176 : ℚ) < 73414273 / 416000 := by
  norm_num [generateAnalysisReport, calculateTCO, calculateHealthMetrics, referenceData,
    getDebtMultiplier, debtLookup, debtMultipliers, healthThresholds_cookbookRatio,
    healthThresholds_cookbooksPerFte]

/-- C3 (amended): on the reference snapshot the pipeline yields cookbook
ratio 60.0 per 1K nodes, debt multiplier 1.25, a total annual TCO of
exactly 1835356825/52 (≈ $35.30M, in the mid-$30M range) and a cost per
node of exactly 73414273/416000 (≈ $176.48). -/
theorem c3_reference_amended :
    (calculateHealthMetrics referenceData).cookbookRatio = 60 ∧
    (calculateHealthMetrics referenceData).debtMultiplier = 1.25 ∧
    (calculateTCO referenceData (calculateHealthMetrics referenceData)).totalAnnualTco =
      1835356825 / 52 ∧
    (35295323 : ℚ) < 1835356825 / 52 ∧ (1835356825 : ℚ) / 52 < 35295324 ∧
    (generateAnalysisReport referenceData).perUnitCosts.perNode = 73414273 / 416000 ∧
    (176 : ℚ) < 73414273 / 416000 ∧ (73414273 : ℚ) / 416000 < 177 := by
  norm_num [generateAnalysisReport, calculateTCO, calculateHealthMetrics, referenceData,
    getDebtMultiplier, debtLookup, debtMultipliers, healthThresholds_cookbookRatio,
    healthThresholds_cookbooksPerFte]

/-- C4: for every snapshot and health metrics, the `totalAnnualTco` field of
`calculateTCO` equals exactly the sum of the nine component fields of the
same result, with no leftover terms. -/
theorem c4_totalAnnualTco_sum (d : OrganizationData) (h : HealthMetrics) :
    (calculateTCO d h).totalAnnualTco =
      (calculateTCO d h).licensingCost + (calculateTCO d h).infrastructureCost +
      (calculateTCO d h).platformLaborCost + (calculateTCO d h).distributedLaborCost +
      (calculateTCO d h).incidentCost + (calculateTCO d h).technicalDebtTax +
      (calculateTCO d h).trainingCost + (calculateTCO d h).contractorCost +
      (calculateTCO d h).opportunityCost := rfl

/-- C5: for every non-negative cookbook ratio, the debt multiplier is the
six-tier first-match step function: ratio ≤ 25 gives 1.00, ≤ 50 gives 1.10,
≤ 100 gives 1.25, ≤ 250 gives 1.50, ≤ 500 gives 2.00, and any larger ratio
gives 2.50 (the table is scanned in ascending order of upper bound and the
first satisfying entry wins). -/
theorem c5_debtMultiplier_step (r : ℚ) (hr : 0 ≤ r) :
    getDebtMultiplier r =
      (if r ≤ 25 then 1 else if r ≤ 50 then 1.1 else if r ≤ 100 then 1.25
       else if r ≤ 250 then 1.5 else if r ≤ 500 then 2 else 2.5) := by
  clear hr
  simp [getDebtMultiplier, debtLookup, debtMultipliers]

/-- C5 (witness): the step-function characterization instantiated at the
concrete ratio 60. -/
theorem c5_debtMultiplier_step_witness :
    (0 : ℚ) ≤ 60 ∧
    getDebtMultiplier 60 =
      (if (60 : ℚ) ≤ 25 then 1 else if (60 : ℚ) ≤ 50 then 1.1
       else if (60 : ℚ) ≤ 100 then 1.25 else if (60 : ℚ) ≤ 250 then 1.5
       else if (60 : ℚ) ≤ 500 then 2 else 2.5) :=
  ⟨by norm_num, c5_debtMultiplier_step 60 (by norm_num)⟩

/-- C6 (counterexample): at `licenseOnlyData` (total annual TCO 1000, all
migration inputs zero) the ansible scenario has year-3 cost strictly below
the current TCO, yet its breakeven is 0 months — not positive as claimed
(the migration cost is 0). -/
theorem c6_breakeven_counterexample :
    (calculateScenario licenseOnlyData
        (calculateTCO licenseOnlyData (calculateHealthMetrics licenseOnlyData))
        .ansible 0.1).year3Cost <
      (calculateTCO licenseOnlyData (calculateHealthMetrics licenseOnlyData)).totalAnnualTco ∧
    (calculateScenario licenseOnlyData
        (calculateTCO licenseOnlyData (calculateHealthMetrics licenseOnlyData))
        .ansible 0.1).breakEvenMonths = some 0 := by
  norm_num [calculateScenario, calculateMigrationCost, calculateTCO, calculateHealthMetrics,
    licenseOnlyData, alternatives, migrationConfig, getDebtMultiplier, debtLookup,
    debtMultipliers, healthThresholds_cookbookRatio, healthThresholds_cookbooksPerFte]

/-- C6 (amended): for every non-negative snapshot, cost breakdown, platform
and discount rate, the scenario's `breakEvenMonths` is `none` exactly when
the year-3 projected cost is greater than or equal to the current total
annual TCO; otherwise it equals (migration cost / (current annual TCO −
year-3 cost)) × 12, which is non-negative, and finite by construction. -/
theorem c6_breakeven_amended (d : OrganizationData) (tco : TCOBreakdown)
    (p : Platform) (r : ℚ) (hd : NonnegData d) :
    ((calculateScenario d tco p r).breakEvenMonths = none ↔
      tco.totalAnnualTco ≤ (calculateScenario d tco p r).year3Cost) ∧
    ((calculateScenario d tco p r).year3Cost < tco.totalAnnualTco →
      (calculateScenario d tco p r).breakEvenMonths =
        some ((calculateScenario d tco p r).migrationCost /
          (tco.totalAnnualTco - (calculateScenario d tco p r).year3Cost) * 12) ∧
      0 ≤ (calculateScenario d tco p r).migrationCost /
          (tco.totalAnnualTco - (calculateScenario d tco p r).year3Cost) * 12) := by
  have hmig := calculateMigrationCost_nonneg d p hd
  constructor
  · simp only [calculateScenario]
    constructor
    · intro h
      by_contra hlt
      simp [sub_pos.mpr (lt_of_not_le hlt)] at h
    · intro h
      simp [not_lt.mpr (sub_nonpos.mpr h)]
  · intro hlt
    have hpos : (0:ℚ) < tco.totalAnnualTco - (calculateScenario d tco p r).year3Cost :=
      sub_pos.mpr hlt
    constructor
    · simp only [calculateScenario] at hpos ⊢
      simp [hpos]
    · exact mul_nonneg (div_nonneg hmig (le_of_lt hpos)) (by norm_num)

/-- C6 (witness): the amended breakeven characterization instantiated at
`licenseOnlyData` with the ansible scenario. -/
theorem c6_breakeven_amended_witness :
    NonnegData licenseOnlyData ∧
    (((calculateScenario licenseOnlyData
          (calculateTCO licenseOnlyData (calculateHealthMetrics licenseOnlyData))
          .ansible 0.1).breakEvenMonths = none ↔
        (calculateTCO licenseOnlyData (calculateHealthMetrics licenseOnlyData)).totalAnnualTco ≤
          (calculateScenario licenseOnlyData
            (calculateTCO licenseOnlyData (calculateHealthMetrics licenseOnlyData))
            .ansible 0.1).year3Cost) ∧
      ((calculateScenario licenseOnlyData
            (calculateTCO licenseOnlyData (calculateHealthMetrics licenseOnlyData))
            .ansible 0.1).year3Cost <
          (calculateTCO licenseOnlyData (calculateHealthMetrics licenseOnlyData)).totalAnnualTco →
        (calculateScenario licenseOnlyData
            (calculateTCO licenseOnlyData (calculateHealthMetrics licenseOnlyData))
            .ansible 0.1).breakEvenMonths =
          some ((calculateScenario licenseOnlyData
              (calculateTCO licenseOnlyData (calculateHealthMetrics licenseOnlyData))
              .ansible 0.1).migrationCost /
            ((calculateTCO licenseOnlyData (calculateHealthMetrics licenseOnlyData)).totalAnnualTco -
              (calculateScenario licenseOnlyData
                (calculateTCO licenseOnlyData (calculateHealthMetrics licenseOnlyData))
                .ansible 0.1).year3Cost) * 12) ∧
        0 ≤ (calculateScenario licenseOnlyData
              (calculateTCO licenseOnlyData (calculateHealthMetrics licenseOnlyData))
              .ansible 0.1).migrationCost /
            ((calculateTCO licenseOnlyData (calculateHealthMetrics licenseOnlyData)).totalAnnualTco -
              (calculateScenario licenseOnlyData
                (calculateTCO licenseOnlyData (calculateHealthMetrics licenseOnlyData))
                .ansible 0.1).year3Cost) * 12)) :=
  ⟨by norm_num [NonnegData, licenseOnlyData],
    c6_breakeven_amended licenseOnlyData
      (calculateTCO licenseOnlyData (calculateHealthMetrics licenseOnlyData))
      .ansible 0.1 (by norm_num [NonnegData, licenseOnlyData])⟩

/-- C7: for every snapshot, cost breakdown and platform, with the report's
discount rate of 0.1 the scenario's 3-year NPV equals the sum over years
i = 1..3 of (current total annual TCO − year-i cost) divided by 1.10 to the
power i; the migration cost is not subtracted separately — it enters only
as a summand of the year-1 cost. -/
theorem c7_npv_formula (d : OrganizationData) (tco : TCOBreakdown) (p : Platform) :
    (calculateScenario d tco p 0.1).npv3Year =
      (tco.totalAnnualTco - (calculateScenario d tco p 0.1).year1Cost) / 1.1 +
      (tco.totalAnnualTco - (calculateScenario d tco p 0.1).year2Cost) / 1.1 ^ 2 +
      (tco.totalAnnualTco - (calculateScenario d tco p 0.1).year3Cost) / 1.1 ^ 3 ∧
    (calculateScenario d tco p 0.1).year1Cost =
      calculateMigrationCost d p +
      d.infrastructure.totalManagedNodes * (alternatives p).perNodeCost * 0.5 +
      tco.licensingCost * 0.5 + tco.laborCosts * 1.2 + tco.infrastructureCost * 0.7 := by
  constructor
  · norm_num [calculateScenario]
  · rfl

/-- C8: for every snapshot, the scenarios list of the report is
non-increasing in `npv3Year`: every element's 3-year NPV is greater than or
equal to that of the element following it. -/
theorem c8_scenarios_sorted (d : OrganizationData) :
    List.Chain' (fun a b => b.npv3Year ≤ a.npv3Year) (generateAnalysisReport d).scenarios := by
  show List.Chain' npvDesc (List.insertionSort npvDesc _)
  exact (List.sorted_insertionSort npvDesc _).chain'

/-- C9 (counterexample): at `fteSplitData` (1 dedicated engineer, 2
part-time contributors at 100% allocation, total annual TCO 3) the report's
per-FTE cost is 3 = TCO / dedicated engineers, while TCO divided by the
total FTE count (1 + 2 × 100/100 = 3, clamped to minimum 1) would be 1 —
the code does not include part-time contributors in the per-FTE
denominator. -/
theorem c9_perUnit_counterexample :
    (generateAnalysisReport fteSplitData).perUnitCosts.perFte = 3 ∧
    (generateAnalysisReport fteSplitData).costBreakdown.totalAnnualTco /
        max 1 (fteSplitData.team.dedicatedEngineers +
          fteSplitData.team.partTimeContributors *
            (fteSplitData.team.partTimeAllocationPct / 100)) = 1 ∧
    (3 : ℚ) ≠ 1 := by
  norm_num [generateAnalysisReport, calculateTCO, calculateHealthMetrics, fteSplitData,
    getDebtMultiplier, debtLookup, debtMultipliers, healthThresholds_cookbookRatio,
    healthThresholds_cookbooksPerFte]

/-- C9 (amended): for every snapshot, the report's per-unit costs equal the
total annual TCO divided by, respectively, the total node count, the active
cookbook count, and the dedicated engineer count (part-time contributors
are not included), with each denominator clamped to a minimum of 1. -/
theorem c9_perUnit_amended (d : OrganizationData) :
    (generateAnalysisReport d).perUnitCosts.perNode =
      (generateAnalysisReport d).costBreakdown.totalAnnualTco /
        max 1 d.infrastructure.totalManagedNodes ∧
    (generateAnalysisReport d).perUnitCosts.perCookbook =
      (generateAnalysisReport d).costBreakdown.totalAnnualTco /
        max 1 d.cookbooks.activeCookbooks ∧
    (generateAnalysisReport d).perUnitCosts.perFte =
      (generateAnalysisReport d).costBreakdown.totalAnnualTco /
        max 1 d.team.dedicatedEngineers :=
  ⟨rfl, rfl, rfl⟩

/-- C10: for every snapshot whose cookbooks-per-FTE exceeds 300,
`calculateHealthMetrics` appends the understaffing issue but leaves the
health score exactly as the cookbook ratio alone dictates; and the
low-efficiency upgrade never downgrades a `critical` score (it is applied
only when the score is still `healthy`). -/
theorem c10_understaffing (d : OrganizationData) :
    ((calculateHealthMetrics d).cookbooksPerFte > 300 →
      IssueTag.fteUnderstaffing ∈ (calculateHealthMetrics d).issues ∧
      (calculateHealthMetrics d).healthScore =
        (if (calculateHealthMetrics d).cookbookRatio > 500 then .critical
         else if (calculateHealthMetrics d).cookbookRatio > 25 then .warning
         else .healthy)) ∧
    ((calculateHealthMetrics d).cookbookRatio > 500 →
      (calculateHealthMetrics d).healthScore = .critical) := by
  simp only [calculateHealthMetrics, healthThresholds_cookbookRatio,
    healthThresholds_cookbooksPerFte]
  split_ifs <;> simp_all

/-- C10 (witness): at `overloadData` (cookbooks-per-FTE 1000 > 300, ratio
1000000 > 500) the understaffing issue is present and the score is
`critical`. -/
theorem c10_understaffing_witness :
    IssueTag.fteUnderstaffing ∈ (calculateHealthMetrics overloadData).issues ∧
    (calculateHealthMetrics overloadData).healthScore = .critical := by
  have h := c10_understaffing overloadData
  refine ⟨(h.1 ?_).1, h.2 ?_⟩ <;>
    norm_num [calculateHealthMetrics, overloadData, healthThresholds_cookbookRatio,
      healthThresholds_cookbooksPerFte]

end TCO
